import Mathlib

/-!
Shallow embedding of the OpenClaw trust-pipeline sources:
src/src/registry.py, src/src/rollback.py, src/src/promote.py,
src/src/eval/gate.py, src/src/sandbox/harness.py, src/src/audit.py,
src/src/validators/manifest.py and src/src/skill_loader.py.

Timestamps are modelled as natural numbers (the registry invariants never
compare wall-clock values); every mutating operation receives the current
time explicitly.  Python dictionaries keyed by strings are modelled as
functions `String → Option _` updated pointwise, which mirrors lookup,
`in`-membership and item assignment.  A Python function that raises maps to
an `Except`-valued Lean function; since every registry mutation is
load-mutate-save, an exception raised before the save leaves the persistent
state unchanged, which is how the failure branches are modelled.
-/

namespace OpenClaw

/-- Version lifecycle status (src/src/models/registry.py: `status` is
the string "staging" | "prod" | "disabled"). -/
inductive Status
  | staging
  | prod
  | disabled
  deriving DecidableEq, Repr

/-- One per-gate record stored by promote.py under `validation.promote_gate`
(src/src/promote.py lines 84-94). -/
structure GateSummary where
  total : Nat
  passed : Nat
  failed : Nat
  pass_rate : ℚ
  threshold : ℚ
  gate_passed : Bool
  deriving DecidableEq, Repr

/-- src/src/models/registry.py ValidationResult.  The `ast_gate` and `sandbox`
payloads are opaque dicts never inspected by the operations under study, so
only their presence is modelled. -/
structure ValidationResult where
  ast_gate : Option Unit := none
  sandbox : Option Unit := none
  promote_gate : Option (List (String × GateSummary)) := none
  deriving DecidableEq, Repr

/-- src/src/models/registry.py SkillVersion. -/
structure SkillVersion where
  version : String
  code_hash : String
  manifest_hash : String
  created_at : Nat
  status : Status
  validation : ValidationResult := {}
  promoted_at : Option Nat := none
  disabled_at : Option Nat := none
  disabled_reason : Option String := none
  deriving DecidableEq, Repr

/-- src/src/models/registry.py SkillEntry; `versions` is the dict
version → SkillVersion. -/
structure SkillEntry where
  name : String
  current_prod : Option String := none
  current_staging : Option String := none
  versions : String → Option SkillVersion := fun _ => none

/-- src/src/models/registry.py RegistryData. -/
structure RegistryData where
  skills : String → Option SkillEntry := fun _ => none
  updated_at : Nat := 0

/-- Pointwise dict update (Python item assignment `m[k] = v`). -/
def upd {α : Type} (m : String → Option α) (k : String) (v : α) :
    String → Option α :=
  fun q => if q = k then some v else m q

/-- src/src/registry.py Registry.save line 28: stamp `updated_at` and write the
file (the write itself is modelled separately as a trace for the persistence
claims). -/
def Registry.save (d : RegistryData) (now : Nat) : RegistryData :=
  { d with updated_at := now }

/-- src/src/registry.py Registry.add_staging (lines 33-61): insert a fresh
staging version (overwriting any existing entry under the same version key,
exactly as dict assignment does) and point `current_staging` at it. -/
def Registry.add_staging (d : RegistryData)
    (name version code_hash manifest_hash : String)
    (validation : ValidationResult) (now : Nat) : RegistryData :=
  let skill_version : SkillVersion :=
    { version := version, code_hash := code_hash, manifest_hash := manifest_hash,
      created_at := now, status := Status.staging, validation := validation }
  let entry : SkillEntry :=
    match d.skills name with
    | some e => e
    | none => { name := name }
  let entry' : SkillEntry :=
    { entry with versions := upd entry.versions version skill_version,
                 current_staging := some version }
  Registry.save { d with skills := upd d.skills name entry' } now

/-- The old-prod disabling step of Registry.promote (src/src/registry.py lines
78-83): `if entry.current_prod and entry.current_prod in entry.versions`.
Python truthiness makes the branch skip both for `None` and for the empty
string. -/
def disableOldProd (entry : SkillEntry) (version : String) (now : Nat) :
    String → Option SkillVersion :=
  match entry.current_prod with
  | none => entry.versions
  | some cp =>
    if cp = "" then entry.versions
    else
      match entry.versions cp with
      | none => entry.versions
      | some old_prod =>
        upd entry.versions cp
          { old_prod with status := Status.disabled, disabled_at := some now,
                          disabled_reason := some ("Superseded by " ++ version) }

/-- src/src/registry.py Registry.promote (lines 63-95).  Returns the Python
boolean result together with the registry state after the call; every failure
branch returns before `save`, leaving the state unchanged.  The promoted
object is read back out of the post-disable map because in Python
`skill_version` and `old_prod` alias the same object when
`current_prod == version`. -/
def Registry.promote (d : RegistryData) (name version : String) (now : Nat) :
    Bool × RegistryData :=
  match d.skills name with
  | none => (false, d)
  | some entry =>
    match entry.versions version with
    | none => (false, d)
    | some skill_version =>
      if skill_version.status ≠ Status.staging then (false, d)
      else
        let versions1 := disableOldProd entry version now
        let sv1 := (versions1 version).getD skill_version
        let versions2 := upd versions1 version
          { sv1 with status := Status.prod, promoted_at := some now }
        let current_staging' :=
          if entry.current_staging = some version then none
          else entry.current_staging
        let entry' : SkillEntry :=
          { entry with versions := versions2, current_prod := some version,
                       current_staging := current_staging' }
        (true, Registry.save { d with skills := upd d.skills name entry' } now)

/-- The current-prod disabling step of Registry.rollback (src/src/registry.py
lines 114-119).  The guard is `if entry.current_prod and entry.current_prod !=
target_version`; the body indexes `entry.versions[entry.current_prod]` without
a membership check, so a dangling pointer raises KeyError — modelled as
`none`, which aborts the operation before its save. -/
def disableForRollback (entry : SkillEntry) (target_version : String)
    (now : Nat) : Option (String → Option SkillVersion) :=
  match entry.current_prod with
  | none => some entry.versions
  | some cp =>
    if cp = "" then some entry.versions
    else if cp = target_version then some entry.versions
    else
      match entry.versions cp with
      | none => none
      | some current =>
        some (upd entry.versions cp
          { current with status := Status.disabled, disabled_at := some now,
                         disabled_reason := some ("Rollback to " ++ target_version) })

/-- src/src/registry.py Registry.rollback (lines 97-126).  Failure branches
(including the potential KeyError) happen before the save and therefore leave
the registry state unchanged. -/
def Registry.rollback (d : RegistryData) (name target_version : String)
    (now : Nat) : Bool × RegistryData :=
  match d.skills name with
  | none => (false, d)
  | some entry =>
    match entry.versions target_version with
    | none => (false, d)
    | some target =>
      if target.status = Status.staging ∧ target.promoted_at = none then
        (false, d)
      else
        match disableForRollback entry target_version now with
        | none => (false, d)
        | some versions1 =>
          let versions2 := upd versions1 target_version
            { target with status := Status.prod }
          let entry' : SkillEntry :=
            { entry with versions := versions2,
                         current_prod := some target_version }
          (true, Registry.save { d with skills := upd d.skills name entry' } now)

/-- One registry mutation, as invoked from the pipeline. -/
inductive RegOp
  | add_staging (name version code_hash manifest_hash : String)
  | promote (name version : String)
  | rollback (name target : String)

/-- Apply one operation; failed promote/rollback calls leave the persistent
state untouched. -/
def stepOp (d : RegistryData) (op : RegOp) (now : Nat) : RegistryData :=
  match op with
  | RegOp.add_staging n v ch mh => Registry.add_staging d n v ch mh {} now
  | RegOp.promote n v => (Registry.promote d n v now).2
  | RegOp.rollback n t => (Registry.rollback d n t now).2

/-- The empty registry (Registry.load on a missing file). -/
def emptyRegistry : RegistryData := {}

/-- Run a sequence of operations at successive timestamps. -/
def runFrom (d : RegistryData) (now : Nat) : List RegOp → RegistryData
  | [] => d
  | op :: ops => runFrom (stepOp d op now) (now + 1) ops

/-- Registry state reachable from the empty registry by a sequence of
operations. -/
def runOps (ops : List RegOp) : RegistryData := runFrom emptyRegistry 0 ops

/-- Observed `current_prod` pointer of a skill. -/
def currentProdOf (d : RegistryData) (n : String) : Option String :=
  (d.skills n).bind fun e => e.current_prod

/-- Observed `current_staging` pointer of a skill. -/
def currentStagingOf (d : RegistryData) (n : String) : Option String :=
  (d.skills n).bind fun e => e.current_staging

/-- Observed status of one version of a skill. -/
def statusOf (d : RegistryData) (n v : String) : Option Status :=
  (d.skills n).bind fun e => (e.versions v).map fun sv => sv.status

/-- Observed `promoted_at` field of one version of a skill. -/
def promotedAtOf (d : RegistryData) (n v : String) : Option (Option Nat) :=
  (d.skills n).bind fun e => (e.versions v).map fun sv => sv.promoted_at

/-- The prod-uniqueness invariant exactly as the specification states it: at
most one version of an entry has status prod, and a non-null `current_prod`
always names a prod-status version. -/
def ClaimedProdInvariant (d : RegistryData) : Prop :=
  ∀ n e, d.skills n = some e →
    (∀ v1 sv1 v2 sv2, e.versions v1 = some sv1 → sv1.status = Status.prod →
        e.versions v2 = some sv2 → sv2.status = Status.prod → v1 = v2) ∧
    (∀ cp, e.current_prod = some cp →
        ∃ sv, e.versions cp = some sv ∧ sv.status = Status.prod)

/-- Reaches a state where `current_prod` names a version that was overwritten
back to staging by add_staging. -/
def cexOps1 : List RegOp :=
  [RegOp.add_staging "s" "v1" "h" "m", RegOp.promote "s" "v1",
   RegOp.add_staging "s" "v1" "h" "m"]

/-- Reaches a state with two prod-status versions: the empty version string is
falsy in Python, so promoting "v2" skips disabling the prod version "". -/
def cexOps2 : List RegOp :=
  [RegOp.add_staging "s" "" "h" "m", RegOp.promote "s" "",
   RegOp.add_staging "s" "v2" "h" "m", RegOp.promote "s" "v2"]

/-- C1, counterexample: the claimed invariant fails on reachable states.  After
`cexOps1`, `current_prod = "v1"` but version "v1" has been overwritten back to
status staging; after `cexOps2`, versions "" and "v2" both have status prod. -/
theorem C1_counterexample :
    ¬ ClaimedProdInvariant (runOps cexOps1) ∧
    ¬ ClaimedProdInvariant (runOps cexOps2) := by
  constructor
  · intro h
    have hcp : currentProdOf (runOps cexOps1) "s" = some "v1" := rfl
    have hst : statusOf (runOps cexOps1) "s" "v1" = some Status.staging := rfl
    cases he : (runOps cexOps1).skills "s" with
    | none =>
      simp only [currentProdOf, he, Option.bind] at hcp
      exact Option.noConfusion hcp
    | some e =>
      simp only [currentProdOf, he, Option.some_bind] at hcp
      obtain ⟨sv, hsv, hprod⟩ := (h "s" e he).2 "v1" hcp
      simp only [statusOf, he, Option.some_bind, hsv, Option.map_some'] at hst
      rw [hprod] at hst
      exact Status.noConfusion (Option.some.inj hst)
  · intro h
    have h1 : statusOf (runOps cexOps2) "s" "" = some Status.prod := rfl
    have h2 : statusOf (runOps cexOps2) "s" "v2" = some Status.prod := rfl
    cases he : (runOps cexOps2).skills "s" with
    | none =>
      simp only [statusOf, he, Option.bind] at h1
      exact Option.noConfusion h1
    | some e =>
      simp only [statusOf, he, Option.some_bind] at h1 h2
      obtain ⟨sv1, hsv1, hs1⟩ := Option.map_eq_some'.mp h1
      obtain ⟨sv2, hsv2, hs2⟩ := Option.map_eq_some'.mp h2
      have heq := (h "s" e he).1 "" sv1 "v2" sv2 hsv1 hs1 hsv2 hs2
      exact absurd heq (by decide)

/-- The invariant that the code actually maintains: every prod-status version
with a non-empty version string is the one named by `current_prod`. -/
def ProdNamedByCurrent (d : RegistryData) : Prop :=
  ∀ n e, d.skills n = some e →
    ∀ v sv, e.versions v = some sv → sv.status = Status.prod → v ≠ "" →
      e.current_prod = some v

lemma upd_self {α : Type} (m : String → Option α) (k : String) (v : α) :
    upd m k v k = some v := by
  simp [upd]

lemma upd_ne {α : Type} (m : String → Option α) (k q : String) (v : α)
    (h : q ≠ k) : upd m k v q = m q := by
  simp [upd, h]

lemma disableOldProd_prod {entry : SkillEntry} {version : String} {now : Nat}
    {v : String} {sv : SkillVersion}
    (h : disableOldProd entry version now v = some sv)
    (hp : sv.status = Status.prod) :
    entry.versions v = some sv ∧ (entry.current_prod = some v → v = "") := by
  unfold disableOldProd at h
  cases hcp : entry.current_prod with
  | none =>
    simp only [hcp] at h
    exact ⟨h, fun hx => Option.noConfusion hx⟩
  | some cp =>
    simp only [hcp] at h
    by_cases hcpe : cp = ""
    · rw [if_pos hcpe] at h
      refine ⟨h, fun hx => ?_⟩
      have : cp = v := Option.some.inj hx
      rw [← this, hcpe]
    · rw [if_neg hcpe] at h
      cases hvc : entry.versions cp with
      | none =>
        simp only [hvc] at h
        refine ⟨h, fun hx => ?_⟩
        have hcv : cp = v := Option.some.inj hx
        rw [← hcv, hvc] at h
        exact Option.noConfusion h
      | some old_prod =>
        simp only [hvc] at h
        by_cases hvk : v = cp
        · subst hvk
          rw [upd_self] at h
          have := Option.some.inj h
          rw [← this] at hp
          exact absurd hp (by simp)
        · rw [upd_ne _ _ _ _ hvk] at h
          exact ⟨h, fun hx => absurd (Option.some.inj hx).symm hvk⟩

lemma disableForRollback_prod {entry : SkillEntry} {target_version : String}
    {now : Nat} {m : String → Option SkillVersion} {v : String}
    {sv : SkillVersion}
    (hm : disableForRollback entry target_version now = some m)
    (h : m v = some sv) (hp : sv.status = Status.prod) :
    entry.versions v = some sv ∧
      (entry.current_prod = some v → v = "" ∨ v = target_version) := by
  unfold disableForRollback at hm
  cases hcp : entry.current_prod with
  | none =>
    simp only [hcp] at hm
    rw [← Option.some.inj hm] at h
    exact ⟨h, fun hx => Option.noConfusion hx⟩
  | some cp =>
    simp only [hcp] at hm
    by_cases hcpe : cp = ""
    · rw [if_pos hcpe] at hm
      rw [← Option.some.inj hm] at h
      refine ⟨h, fun hx => Or.inl ?_⟩
      rw [← Option.some.inj hx, hcpe]
    · rw [if_neg hcpe] at hm
      by_cases hct : cp = target_version
      · rw [if_pos hct] at hm
        rw [← Option.some.inj hm] at h
        refine ⟨h, fun hx => Or.inr ?_⟩
        rw [← Option.some.inj hx, hct]
      · rw [if_neg hct] at hm
        cases hvc : entry.versions cp with
        | none =>
          simp only [hvc] at hm
          exact Option.noConfusion hm
        | some current =>
          simp only [hvc] at hm
          rw [← Option.some.inj hm] at h
          by_cases hvk : v = cp
          · subst hvk
            rw [upd_self] at h
            have := Option.some.inj h
            rw [← this] at hp
            exact absurd hp (by simp)
          · rw [upd_ne _ _ _ _ hvk] at h
            refine ⟨h, fun hx => absurd (Option.some.inj hx).symm hvk⟩

lemma prodNamed_update {d : RegistryData} {name : String} {entry' : SkillEntry}
    {now : Nat} (h : ProdNamedByCurrent d)
    (hentry : ∀ v sv, entry'.versions v = some sv → sv.status = Status.prod →
        v ≠ "" → entry'.current_prod = some v) :
    ProdNamedByCurrent
      (Registry.save { d with skills := upd d.skills name entry' } now) := by
  intro n e he v sv hv hs hne
  have he' : upd d.skills name entry' n = some e := he
  by_cases hn : n = name
  · subst hn
    rw [upd_self] at he'
    rw [← Option.some.inj he'] at hv ⊢
    exact hentry v sv hv hs hne
  · rw [upd_ne _ _ _ _ hn] at he'
    exact h n e he' v sv hv hs hne

lemma add_staging_preserves {d : RegistryData}
    (name version code_hash manifest_hash : String)
    (validation : ValidationResult) (now : Nat) (h : ProdNamedByCurrent d) :
    ProdNamedByCurrent
      (Registry.add_staging d name version code_hash manifest_hash
        validation now) := by
  unfold Registry.add_staging
  refine prodNamed_update h ?_
  intro v sv hv hs hne
  dsimp only at hv ⊢
  by_cases hvv : v = version
  · subst hvv
    rw [upd_self] at hv
    have hsv := Option.some.inj hv
    rw [← hsv] at hs
    exact Status.noConfusion hs
  · rw [upd_ne _ _ _ _ hvv] at hv
    cases he0 : d.skills name with
    | none =>
      simp only [he0] at hv
      exact Option.noConfusion hv
    | some e0 =>
      simp only [he0] at hv ⊢
      exact h name e0 he0 v sv hv hs hne

lemma promote_preserves {d : RegistryData} (name version : String) (now : Nat)
    (h : ProdNamedByCurrent d) :
    ProdNamedByCurrent (Registry.promote d name version now).2 := by
  cases hskills : d.skills name with
  | none =>
    simp only [Registry.promote, hskills]
    exact h
  | some entry =>
    cases hver : entry.versions version with
    | none =>
      simp only [Registry.promote, hskills, hver]
      exact h
    | some skill_version =>
      by_cases hstat : skill_version.status = Status.staging
      · simp only [Registry.promote, hskills, hver, hstat]
        refine prodNamed_update h ?_
        intro v sv hv hs hne
        dsimp only at hv ⊢
        by_cases hvv : v = version
        · rw [hvv]
        · rw [upd_ne _ _ _ _ hvv] at hv
          obtain ⟨hver', hcur⟩ := disableOldProd_prod hv hs
          have hin := h name entry hskills v sv hver' hs hne
          exact absurd (hcur hin) hne
      · simp only [Registry.promote, hskills, hver, if_pos hstat]
        exact h

lemma rollback_preserves {d : RegistryData} (name target_version : String)
    (now : Nat) (h : ProdNamedByCurrent d) :
    ProdNamedByCurrent (Registry.rollback d name target_version now).2 := by
  cases hskills : d.skills name with
  | none =>
    simp only [Registry.rollback, hskills]
    exact h
  | some entry =>
    cases hver : entry.versions target_version with
    | none =>
      simp only [Registry.rollback, hskills, hver]
      exact h
    | some target =>
      by_cases hguard : target.status = Status.staging ∧ target.promoted_at = none
      · simp only [Registry.rollback, hskills, hver, if_pos hguard]
        exact h
      · simp only [Registry.rollback, hskills, hver, if_neg hguard]
        cases hdis : disableForRollback entry target_version now with
        | none =>
          simp only [hdis]
          exact h
        | some versions1 =>
          simp only [hdis]
          refine prodNamed_update h ?_
          intro v sv hv hs hne
          dsimp only at hv ⊢
          by_cases hvv : v = target_version
          · rw [hvv]
          · rw [upd_ne _ _ _ _ hvv] at hv
            obtain ⟨hver', hcur⟩ := disableForRollback_prod hdis hv hs
            have hin := h name entry hskills v sv hver' hs hne
            cases hcur hin with
            | inl he => exact absurd he hne
            | inr ht => exact absurd ht hvv

lemma stepOp_preserves {d : RegistryData} (op : RegOp) (now : Nat)
    (h : ProdNamedByCurrent d) : ProdNamedByCurrent (stepOp d op now) := by
  cases op with
  | add_staging n v ch mh => exact add_staging_preserves n v ch mh {} now h
  | promote n v => exact promote_preserves n v now h
  | rollback n t => exact rollback_preserves n t now h

lemma runFrom_inv (ops : List RegOp) :
    ∀ d now, ProdNamedByCurrent d → ProdNamedByCurrent (runFrom d now ops) := by
  induction ops with
  | nil => exact fun d now h => h
  | cons op ops ih => exact fun d now h => ih _ _ (stepOp_preserves op now h)

lemma emptyRegistry_inv : ProdNamedByCurrent emptyRegistry :=
  fun _ _ he => Option.noConfusion he

lemma runOps_inv (ops : List RegOp) : ProdNamedByCurrent (runOps ops) :=
  runFrom_inv ops _ _ emptyRegistry_inv

/-- C1, amended: in every reachable registry state, a prod-status version with
a non-empty version string is named by `current_prod`, and any two prod-status
versions with non-empty version strings coincide.  (As the counterexample
shows, `current_prod` may nevertheless name a version that is no longer prod
after add_staging overwrites a promoted version, and an empty version string —
falsy in Python — can leave a second prod-status version behind.) -/
theorem C1_prod_invariant_amended (ops : List RegOp) (n v v2 : String)
    (h1 : statusOf (runOps ops) n v = some Status.prod) (h2 : v ≠ "")
    (h3 : statusOf (runOps ops) n v2 = some Status.prod) (h4 : v2 ≠ "") :
    currentProdOf (runOps ops) n = some v ∧ v2 = v := by
  have hinv := runOps_inv ops
  cases he : (runOps ops).skills n with
  | none =>
    simp only [statusOf, he, Option.bind] at h1
    exact Option.noConfusion h1
  | some e =>
    simp only [statusOf, he, Option.some_bind] at h1 h3
    obtain ⟨sv, hsv, hs⟩ := Option.map_eq_some'.mp h1
    obtain ⟨sv2, hsv2, hs2⟩ := Option.map_eq_some'.mp h3
    have hcp := hinv n e he v sv hsv hs h2
    have hcp2 := hinv n e he v2 sv2 hsv2 hs2 h4
    constructor
    · simp only [currentProdOf, he, Option.some_bind]
      exact hcp
    · rw [hcp] at hcp2
      exact (Option.some.inj hcp2).symm

/-- Witness for the amended C1 theorem at a concrete reachable state. -/
theorem C1_prod_invariant_amended_witness :
    currentProdOf
        (runOps [RegOp.add_staging "s" "v1" "h" "m", RegOp.promote "s" "v1"])
        "s" = some "v1" ∧ "v1" = "v1" :=
  C1_prod_invariant_amended
    [RegOp.add_staging "s" "v1" "h" "m", RegOp.promote "s" "v1"]
    "s" "v1" "v1" rfl (by decide) rfl (by decide)

/-- Audit events emitted by the promoter and rollbacker (src/src/audit.py
operation tags with their keyword arguments). -/
inductive AuditEvent
  | disable (skill version reason : String)
  | rollbackEv (skill from_version to_version : String)
  | promote_failed (skill version failed_gates : String)
  | promoteEv (skill version : String)
      (replay_rate regression_rate redteam_rate : ℚ)
  deriving DecidableEq, Repr

/-- Typed errors raised by rollback_skill (src/src/rollback.py raises
ValueError for the three precondition failures; `key_error` models the
unchecked `entry.versions[entry.current_prod]` lookup on line 66). -/
inductive RollbackError
  | skill_not_found (skill : String)
  | version_not_found (version : String)
  | never_promoted (version : String)
  | key_error (key : String)
  deriving DecidableEq, Repr

/-- src/src/rollback.py rollback_skill (lines 11-94): load the registry,
validate, disable the current prod version, set the target to prod, save, and
log.  A raised error aborts before the save, so the returned error carries no
new registry state and no audit events — the on-disk registry is unchanged and
nothing is logged. -/
def rollback_skill (d : RegistryData) (skill_name target_version : String)
    (now : Nat) : Except RollbackError (RegistryData × List AuditEvent) :=
  match d.skills skill_name with
  | none => Except.error (RollbackError.skill_not_found skill_name)
  | some entry =>
    match entry.versions target_version with
    | none => Except.error (RollbackError.version_not_found target_version)
    | some target =>
      if target.status = Status.staging ∧ target.promoted_at = none then
        Except.error (RollbackError.never_promoted target_version)
      else
        let from_version :=
          match entry.current_prod with
          | none => "none"
          | some cp => if cp = "" then "none" else cp
        let finish := fun (versions1 : String → Option SkillVersion)
            (events : List AuditEvent) =>
          let versions2 := upd versions1 target_version
            { target with status := Status.prod }
          let entry' : SkillEntry :=
            { entry with versions := versions2,
                         current_prod := some target_version }
          let d' := Registry.save
            { d with skills := upd d.skills skill_name entry' } now
          Except.ok (d', events ++
            [AuditEvent.rollbackEv skill_name from_version target_version])
        match entry.current_prod with
        | none => finish entry.versions []
        | some cp =>
          if cp = "" ∨ cp = target_version then finish entry.versions []
          else
            match entry.versions cp with
            | none => Except.error (RollbackError.key_error cp)
            | some current =>
              finish
                (upd entry.versions cp
                  { current with status := Status.disabled,
                                 disabled_at := some now,
                                 disabled_reason :=
                                   some ("Rollback to " ++ target_version) })
                [AuditEvent.disable skill_name cp
                  ("Rollback to " ++ target_version)]

/-- The rejection rule exactly as the specification states it: rollback fails
with a typed error on unknown skill, unknown version, or any target whose
`promoted_at` is null. -/
def ClaimedRollbackRejects : Prop :=
  ∀ d skill_name target_version now,
    (d.skills skill_name = none ∨
     (∃ e, d.skills skill_name = some e ∧ e.versions target_version = none) ∨
     promotedAtOf d skill_name target_version = some none) →
    ∃ err, rollback_skill d skill_name target_version now = Except.error err

/-- Reachable state in which version "v1" has status disabled yet was never
promoted: the promoted "v1" is overwritten back to staging by add_staging
(resetting `promoted_at` to null), then disabled as old prod when "v2" is
promoted. -/
def cexOps3 : List RegOp :=
  [RegOp.add_staging "s" "v1" "h" "m", RegOp.promote "s" "v1",
   RegOp.add_staging "s" "v1" "h" "m", RegOp.add_staging "s" "v2" "h" "m",
   RegOp.promote "s" "v2"]

/-- Helper to discriminate the result of rollback_skill concretely. -/
def rollbackIsOk (r : Except RollbackError (RegistryData × List AuditEvent)) :
    Bool :=
  match r with
  | Except.ok _ => true
  | Except.error _ => false

/-- C6, counterexample: on the reachable state after `cexOps3`, version "v1"
has `promoted_at = None` (it was never promoted since its overwrite) and
status disabled, yet rollback_skill accepts it: the staging-status guard is
the only promoted_at check. -/
theorem C6_counterexample : ¬ ClaimedRollbackRejects := by
  intro h
  obtain ⟨err, herr⟩ :=
    h (runOps cexOps3) "s" "v1" 5 (Or.inr (Or.inr (by decide)))
  have hok : rollbackIsOk (rollback_skill (runOps cexOps3) "s" "v1" 5) =
      true := by decide
  rw [herr] at hok
  exact Bool.noConfusion hok

/-- C6, amended: rollback_skill fails with a typed error — returning no
mutated registry and no audit events — when the skill is unknown, when the
target version is unknown, or when the target has status staging and a null
`promoted_at`.  (A never-promoted target whose status is not staging, such as
a disabled version left by an overwrite, is accepted, as the counterexample
shows.) -/
theorem C6_rollback_rejects_amended (d : RegistryData)
    (skill_name target_version : String) (now : Nat)
    (h : d.skills skill_name = none ∨
      (∃ e, d.skills skill_name = some e ∧
        e.versions target_version = none) ∨
      (∃ e tv, d.skills skill_name = some e ∧
        e.versions target_version = some tv ∧
        tv.status = Status.staging ∧ tv.promoted_at = none)) :
    ∃ err, rollback_skill d skill_name target_version now =
        Except.error err ∧
      (err = RollbackError.skill_not_found skill_name ∨
       err = RollbackError.version_not_found target_version ∨
       err = RollbackError.never_promoted target_version) := by
  rcases h with h | ⟨e, he, hv⟩ | ⟨e, tv, he, hv, hs, hp⟩
  · refine ⟨RollbackError.skill_not_found skill_name, ?_, Or.inl rfl⟩
    simp only [rollback_skill, h]
  · refine ⟨RollbackError.version_not_found target_version, ?_,
      Or.inr (Or.inl rfl)⟩
    simp only [rollback_skill, he, hv]
  · refine ⟨RollbackError.never_promoted target_version, ?_,
      Or.inr (Or.inr rfl)⟩
    simp only [rollback_skill, he, hv, hs, hp, and_self, if_true]

/-- Witness for the amended C6 theorem: the empty registry rejects every
rollback with skill_not_found. -/
theorem C6_rollback_rejects_amended_witness :
    ∃ err, rollback_skill emptyRegistry "text_echo" "1.0.0" 0 =
        Except.error err ∧
      (err = RollbackError.skill_not_found "text_echo" ∨
       err = RollbackError.version_not_found "1.0.0" ∨
       err = RollbackError.never_promoted "1.0.0") :=
  C6_rollback_rejects_amended emptyRegistry "text_echo" "1.0.0" 0 (Or.inl rfl)

/-- src/src/eval/gate.py GateReport (lines 29-40), without the per-case
result list. -/
structure GateReport where
  gate_name : String
  total : Nat
  passed_count : Nat
  failed_count : Nat
  pass_rate : ℚ
  threshold : ℚ
  gate_passed : Bool
  deriving DecidableEq, Repr

/-- src/src/eval/gate.py EvalGate.run_gate (lines 236-278), with each
executed case abstracted to its boolean outcome: `case_results` lists
`r.passed` for every case file in the category directory whose `skill` field
matches the skill under evaluation (load_cases filtering, lines 59-82).
Python's float arithmetic is modelled over ℚ. -/
def run_gate (category : String) (case_results : List Bool)
    (threshold : ℚ) : GateReport :=
  let total := case_results.length
  let passed_count := (case_results.filter (fun r => r)).length
  let failed_count := total - passed_count
  let pass_rate : ℚ := if 0 < total then (passed_count : ℚ) / (total : ℚ) else 1
  { gate_name := category, total := total, passed_count := passed_count,
    failed_count := failed_count, pass_rate := pass_rate,
    threshold := threshold, gate_passed := decide (threshold ≤ pass_rate) }

/-- C9, confirmed: the reported pass_rate is passed_count / total for a
non-empty case set and exactly 1 for an empty one, and the gate passes exactly
when the pass rate meets the threshold. -/
theorem C9_run_gate_pass_rate (category : String) (case_results : List Bool)
    (threshold : ℚ) :
    (0 < (run_gate category case_results threshold).total →
      (run_gate category case_results threshold).pass_rate =
        ((run_gate category case_results threshold).passed_count : ℚ) /
          ((run_gate category case_results threshold).total : ℚ)) ∧
    (case_results = [] →
      (run_gate category case_results threshold).pass_rate = 1) ∧
    ((run_gate category case_results threshold).gate_passed = true ↔
      threshold ≤ (run_gate category case_results threshold).pass_rate) := by
  refine ⟨?_, ?_, ?_⟩
  · intro hpos
    simp only [run_gate] at hpos ⊢
    rw [if_pos hpos]
  · intro hnil
    subst hnil
    simp [run_gate]
  · simp only [run_gate]
    exact decide_eq_true_iff

/-- Witness for C9 on the S5 regression data: one passing and one failing
case at threshold 0.99. -/
theorem C9_run_gate_pass_rate_witness :
    (0 < (run_gate "regression" [true, false] (99/100)).total →
      (run_gate "regression" [true, false] (99/100)).pass_rate =
        ((run_gate "regression" [true, false] (99/100)).passed_count : ℚ) /
          ((run_gate "regression" [true, false] (99/100)).total : ℚ)) ∧
    ([true, false] = ([] : List Bool) →
      (run_gate "regression" [true, false] (99/100)).pass_rate = 1) ∧
    ((run_gate "regression" [true, false] (99/100)).gate_passed = true ↔
      99/100 ≤ (run_gate "regression" [true, false] (99/100)).pass_rate) :=
  C9_run_gate_pass_rate "regression" [true, false] (99/100)

/-- The three promotion gates with their thresholds
(src/src/promote.py lines 63-67). -/
def promote_gates : List (String × ℚ) :=
  [("replay", 1), ("regression", 99/100), ("redteam", 1)]

/-- Recording of gate results under `validation.promote_gate`
(src/src/promote.py lines 78-95): a load-mutate-save touching only the
validation field of the staged version. -/
def record_promote_gate (d : RegistryData) (name version : String)
    (gate_results : List (String × GateReport)) (now : Nat) : RegistryData :=
  match d.skills name with
  | none => d
  | some entry =>
    match entry.versions version with
    | none => d
    | some sv =>
      let summaries := gate_results.map fun gr =>
        (gr.1,
          { total := gr.2.total, passed := gr.2.passed_count,
            failed := gr.2.failed_count, pass_rate := gr.2.pass_rate,
            threshold := gr.2.threshold, gate_passed := gr.2.gate_passed :
            GateSummary })
      let sv' := { sv with validation :=
        { sv.validation with promote_gate := some summaries } }
      let entry' := { entry with versions := upd entry.versions version sv' }
      Registry.save { d with skills := upd d.skills name entry' } now

/-- Pass rate of a named gate in the collected results
(src/src/promote.py lines 124-126 index gate_results by name). -/
def rateOf (gate_results : List (String × GateReport)) (g : String) : ℚ :=
  match gate_results.lookup g with
  | some r => r.pass_rate
  | none => 0

/-- Outcome of promote_skill: Python return value, registry state after the
call, audit events in emission order, and whether the staging tree was copied
into the prod tree. -/
structure PromoteOutcome where
  success : Bool
  registry : RegistryData
  audit : List AuditEvent
  copied_to_prod : Bool

/-- src/src/promote.py promote_skill (lines 20-129).  The staging directory
check is the boolean `skill_path_exists`; `case_results` gives, per gate
category, the boolean outcomes of the filtered eval cases (the inputs of
run_gate). -/
def promote_skill (d : RegistryData) (skill_name : String)
    (skill_path_exists : Bool) (case_results : String → List Bool)
    (now : Nat) : PromoteOutcome :=
  match d.skills skill_name with
  | none => ⟨false, d, [], false⟩
  | some entry =>
    match entry.current_staging with
    | none => ⟨false, d, [], false⟩
    | some staging_version =>
      if skill_path_exists = false then ⟨false, d, [], false⟩
      else
        let gate_results := promote_gates.map fun g =>
          (g.1, run_gate g.1 (case_results g.1) g.2)
        let all_passed := gate_results.all fun gr => gr.2.gate_passed
        let d1 := record_promote_gate d skill_name staging_version
          gate_results now
        if all_passed = false then
          let failed_gates :=
            (gate_results.filter fun gr => !gr.2.gate_passed).map
              fun gr => gr.1
          ⟨false, d1,
            [AuditEvent.promote_failed skill_name staging_version
              (String.intercalate "," failed_gates)], false⟩
        else
          let d2 := (Registry.promote d1 skill_name staging_version now).2
          ⟨true, d2,
            [AuditEvent.promoteEv skill_name staging_version
              (rateOf gate_results "replay") (rateOf gate_results "regression")
              (rateOf gate_results "redteam")], true⟩

/-- The comma-joined names of the failed gates for given case outcomes. -/
def failedGateNames (case_results : String → List Bool) : List String :=
  ((promote_gates.map fun g => (g.1, run_gate g.1 (case_results g.1) g.2)).filter
      fun gr => !gr.2.gate_passed).map fun gr => gr.1

lemma record_promote_gate_skills (d : RegistryData) (name version : String)
    (gate_results : List (String × GateReport)) (now : Nat) (n : String) :
    currentProdOf (record_promote_gate d name version gate_results now) n =
        currentProdOf d n ∧
      currentStagingOf (record_promote_gate d name version gate_results now) n =
        currentStagingOf d n := by
  cases he : d.skills name with
  | none => simp [record_promote_gate, he]
  | some entry =>
    cases hv : entry.versions version with
    | none => simp [record_promote_gate, he, hv]
    | some sv =>
      by_cases hn : n = name
      · subst hn
        simp [record_promote_gate, he, hv, currentProdOf, currentStagingOf,
          Registry.save, upd_self]
      · simp [record_promote_gate, he, hv, currentProdOf, currentStagingOf,
          Registry.save, upd_ne _ _ _ _ hn]

/-- C8, confirmed: whenever at least one of the three gates fails its
threshold, promote_skill emits exactly one PROMOTE_FAILED audit event
carrying the comma-joined failed gate names, returns failure, copies nothing
into the prod tree, and leaves every skill's current_prod and current_staging
pointers unchanged (only `validation.promote_gate` of the staged version is
recorded). -/
theorem C8_promote_failed (d : RegistryData) (skill_name : String)
    (entry : SkillEntry) (staging_version : String)
    (case_results : String → List Bool) (now : Nat)
    (hentry : d.skills skill_name = some entry)
    (hstag : entry.current_staging = some staging_version)
    (hfail : ∃ g ∈ promote_gates,
      (run_gate g.1 (case_results g.1) g.2).gate_passed = false) :
    (promote_skill d skill_name true case_results now).success = false ∧
    (promote_skill d skill_name true case_results now).copied_to_prod =
      false ∧
    (promote_skill d skill_name true case_results now).audit =
      [AuditEvent.promote_failed skill_name staging_version
        (String.intercalate "," (failedGateNames case_results))] ∧
    (∀ n, currentProdOf
        (promote_skill d skill_name true case_results now).registry n =
      currentProdOf d n) ∧
    (∀ n, currentStagingOf
        (promote_skill d skill_name true case_results now).registry n =
      currentStagingOf d n) := by
  have hall : ((promote_gates.map fun g =>
      (g.1, run_gate g.1 (case_results g.1) g.2)).all
        fun gr => gr.2.gate_passed) = false := by
    obtain ⟨g, hg, hgf⟩ := hfail
    apply List.all_eq_false.mpr
    refine ⟨(g.1, run_gate g.1 (case_results g.1) g.2), List.mem_map.mpr ⟨g, hg, rfl⟩, ?_⟩
    simp [hgf]
  refine ⟨?_, ?_, ?_, ?_, ?_⟩
  · simp only [promote_skill, hentry, hstag, hall, Bool.true_eq_false, if_false, if_true]
  · simp only [promote_skill, hentry, hstag, hall, Bool.true_eq_false, if_false, if_true]
  · simp only [promote_skill, hentry, hstag, hall, Bool.true_eq_false, if_false, if_true, failedGateNames]
  · intro n
    simp only [promote_skill, hentry, hstag, hall, Bool.true_eq_false, if_false, if_true]
    exact (record_promote_gate_skills d skill_name staging_version _ now n).1
  · intro n
    simp only [promote_skill, hentry, hstag, hall, Bool.true_eq_false, if_false, if_true]
    exact (record_promote_gate_skills d skill_name staging_version _ now n).2

/-- Witness for C8: the S5 scenario — replay one passing case, regression one
pass and one fail at threshold 0.99, redteam empty — on a registry that has
"text_echo" in staging. -/
def s5Registry : RegistryData :=
  runOps [RegOp.add_staging "text_echo" "1.0.0" "h" "m"]

/-- Case outcomes of scenario S5. -/
def s5Cases : String → List Bool := fun c =>
  if c = "replay" then [true]
  else if c = "regression" then [true, false]
  else []

/-- Witness for the C8 theorem at the S5 scenario. -/
theorem C8_promote_failed_witness :
    (promote_skill s5Registry "text_echo" true s5Cases 1).success = false ∧
    (promote_skill s5Registry "text_echo" true s5Cases 1).copied_to_prod =
      false ∧
    (promote_skill s5Registry "text_echo" true s5Cases 1).audit =
      [AuditEvent.promote_failed "text_echo" "1.0.0"
        (String.intercalate "," (failedGateNames s5Cases))] ∧
    (∀ n, currentProdOf
        (promote_skill s5Registry "text_echo" true s5Cases 1).registry n =
      currentProdOf s5Registry n) ∧
    (∀ n, currentStagingOf
        (promote_skill s5Registry "text_echo" true s5Cases 1).registry n =
      currentStagingOf s5Registry n) := by
  refine C8_promote_failed s5Registry "text_echo" _ "1.0.0" s5Cases 1 rfl
    rfl ⟨("regression", 99/100),
      List.mem_cons_of_mem _ (List.mem_cons_self _ _), ?_⟩
  have hc : s5Cases "regression" = [true, false] := rfl
  show (run_gate "regression" (s5Cases "regression") (99/100)).gate_passed =
    false
  rw [hc]
  simp only [run_gate]
  rw [decide_eq_false_iff_not]
  norm_num

/-- Python runtime values that a skill's verify() can return.  `bool true`
models the singleton object True; the Python `is` identity test against True
succeeds exactly on it (1, "yes", [] and friends are different objects). -/
inductive PyVal
  | none_
  | bool (b : Bool)
  | int (n : Int)
  | str (s : String)
  deriving DecidableEq, Repr

/-- Python repr of the modelled values, as interpolated by
`f"... returned {result!r} ..."`.  (String repr is modelled for strings
without quotes or escapes.) -/
def pyRepr : PyVal → String
  | PyVal.none_ => "None"
  | PyVal.bool true => "True"
  | PyVal.bool false => "False"
  | PyVal.int n => toString n
  | PyVal.str s => "'" ++ s ++ "'"

/-- Outcome of calling verify(): a returned value or a raised condition
(carrying the exception class name and its message), including SystemExit
and KeyboardInterrupt, which are BaseException but not Exception. -/
inductive VerifyOutcome
  | returns (v : PyVal)
  | raises (exc_class msg : String)
  deriving DecidableEq, Repr

/-- A skill module as the harness observes it: whether the import machinery
produced a loadable spec, whether executing the module body raised, whether
the `verify` and `action` attributes exist, and what verify() does when
invoked. -/
structure SkillModule where
  load_ok : Bool
  exec_raises : Option (String × String)
  has_verify : Bool
  has_action : Bool
  verify_outcome : VerifyOutcome
  deriving DecidableEq, Repr

/-- Sentinel printed on success (src/src/sandbox/harness.py line 12). -/
def VERIFICATION_SUCCESS : String := "VERIFICATION_SUCCESS"

/-- Failure line prefix (src/src/sandbox/harness.py line 13). -/
def VERIFICATION_FAILED : String := "VERIFICATION_FAILED"

/-- src/src/sandbox/harness.py main (lines 16-61): returns the printed lines
and the process exit code.  The whole body runs inside
`try ... except BaseException`, so any condition raised while loading,
executing the module body, or running verify() — including SystemExit(0) and
KeyboardInterrupt — is caught and turned into a VERIFICATION_FAILED line with
the exception class name and exit code 1.  The traceback printed after the
failure line is not modelled. -/
def harness_main (m : SkillModule) (skill_file : String) : List String × Nat :=
  if m.load_ok = false then
    ([VERIFICATION_FAILED ++ ": Cannot load skill module from " ++ skill_file],
      1)
  else
    match m.exec_raises with
    | some e => ([VERIFICATION_FAILED ++ ": " ++ e.1 ++ ": " ++ e.2], 1)
    | none =>
      if m.has_verify = false then
        ([VERIFICATION_FAILED ++ ": Missing verify() function"], 1)
      else if m.has_action = false then
        ([VERIFICATION_FAILED ++ ": Missing action() function"], 1)
      else
        match m.verify_outcome with
        | VerifyOutcome.raises c msg =>
          ([VERIFICATION_FAILED ++ ": " ++ c ++ ": " ++ msg], 1)
        | VerifyOutcome.returns v =>
          if v = PyVal.bool true then ([VERIFICATION_SUCCESS], 0)
          else
            ([VERIFICATION_FAILED ++ ": verify() returned " ++ pyRepr v ++
              ", expected True"], 1)

/-- C2, confirmed: whenever verify() raises any condition whatsoever, the
harness prints a single line that begins `VERIFICATION_FAILED:` and contains
the exception class name, and exits with code 1 — no raised condition can
produce a success exit. -/
theorem C2_harness_catches_all (m : SkillModule) (skill_file c msg : String)
    (hl : m.load_ok = true) (he : m.exec_raises = none)
    (hv : m.has_verify = true) (ha : m.has_action = true)
    (hr : m.verify_outcome = VerifyOutcome.raises c msg) :
    (harness_main m skill_file).1 =
      ["VERIFICATION_FAILED:" ++ " " ++ c ++ ": " ++ msg] ∧
    (harness_main m skill_file).2 = 1 := by
  have hline : harness_main m skill_file =
      ([VERIFICATION_FAILED ++ ": " ++ c ++ ": " ++ msg], 1) := by
    simp [harness_main, hl, he, hv, ha, hr]
  rw [hline]
  exact ⟨rfl, rfl⟩

/-- Witness for C2 at the SystemExit(0) bypass of scenario S3. -/
theorem C2_harness_catches_all_witness :
    (harness_main
        { load_ok := true, exec_raises := none, has_verify := true,
          has_action := true,
          verify_outcome := VerifyOutcome.raises "SystemExit" "0" }
        "/skill/skill.py").1 =
      ["VERIFICATION_FAILED:" ++ " " ++ "SystemExit" ++ ": " ++ "0"] ∧
    (harness_main
        { load_ok := true, exec_raises := none, has_verify := true,
          has_action := true,
          verify_outcome := VerifyOutcome.raises "SystemExit" "0" }
        "/skill/skill.py").2 = 1 :=
  C2_harness_catches_all _ "/skill/skill.py" "SystemExit" "0"
    rfl rfl rfl rfl rfl

/-- C3, confirmed: a module that loads and has both entry points succeeds —
printing exactly the sentinel and exiting 0 — if and only if verify()
returned the exact boolean True; any other returned value yields exit code 1
and a VERIFICATION_FAILED line carrying the repr of that value. -/
theorem C3_harness_strict_true (m : SkillModule) (skill_file : String)
    (hl : m.load_ok = true) (he : m.exec_raises = none)
    (hv : m.has_verify = true) (ha : m.has_action = true) :
    ((harness_main m skill_file).1 = [VERIFICATION_SUCCESS] ∧
        (harness_main m skill_file).2 = 0 ↔
      m.verify_outcome = VerifyOutcome.returns (PyVal.bool true)) ∧
    (∀ v, m.verify_outcome = VerifyOutcome.returns v →
      v ≠ PyVal.bool true →
      (harness_main m skill_file).2 = 1 ∧
      (harness_main m skill_file).1 =
        [VERIFICATION_FAILED ++ ": verify() returned " ++ pyRepr v ++
          ", expected True"]) := by
  constructor
  · cases hr : m.verify_outcome with
    | returns v =>
      by_cases hb : v = PyVal.bool true
      · subst hb
        simp [harness_main, hl, he, hv, ha, hr]
      · have hline : harness_main m skill_file =
          ([VERIFICATION_FAILED ++ ": verify() returned " ++ pyRepr v ++
            ", expected True"], 1) := by
          simp [harness_main, hl, he, hv, ha, hr, hb]
        rw [hline]
        constructor
        · intro hcon
          exact absurd hcon.2 Nat.one_ne_zero
        · intro hcon
          exact absurd (VerifyOutcome.returns.inj hcon) hb
    | raises c msg =>
      have hline : harness_main m skill_file =
          ([VERIFICATION_FAILED ++ ": " ++ c ++ ": " ++ msg], 1) := by
        simp [harness_main, hl, he, hv, ha, hr]
      rw [hline]
      constructor
      · intro hcon
        exact absurd hcon.2 Nat.one_ne_zero
      · intro hcon
        exact VerifyOutcome.noConfusion hcon
  · intro v hr hb
    have hline : harness_main m skill_file =
        ([VERIFICATION_FAILED ++ ": verify() returned " ++ pyRepr v ++
          ", expected True"], 1) := by
      simp [harness_main, hl, he, hv, ha, hr, hb]
    rw [hline]
    exact ⟨rfl, rfl⟩

/-- Witness for C3 at the truthy integer 1 of scenario S4. -/
theorem C3_harness_strict_true_witness :
    ((harness_main
          { load_ok := true, exec_raises := none, has_verify := true,
            has_action := true,
            verify_outcome := VerifyOutcome.returns (PyVal.int 1) }
          "/skill/skill.py").1 = [VERIFICATION_SUCCESS] ∧
      (harness_main
          { load_ok := true, exec_raises := none, has_verify := true,
            has_action := true,
            verify_outcome := VerifyOutcome.returns (PyVal.int 1) }
          "/skill/skill.py").2 = 0 ↔
      VerifyOutcome.returns (PyVal.int 1) =
        VerifyOutcome.returns (PyVal.bool true)) ∧
    (∀ v, VerifyOutcome.returns (PyVal.int 1) = VerifyOutcome.returns v →
      v ≠ PyVal.bool true →
      (harness_main
          { load_ok := true, exec_raises := none, has_verify := true,
            has_action := true,
            verify_outcome := VerifyOutcome.returns (PyVal.int 1) }
          "/skill/skill.py").2 = 1 ∧
      (harness_main
          { load_ok := true, exec_raises := none, has_verify := true,
            has_action := true,
            verify_outcome := VerifyOutcome.returns (PyVal.int 1) }
          "/skill/skill.py").1 =
        [VERIFICATION_FAILED ++ ": verify() returned " ++ pyRepr v ++
          ", expected True"]) :=
  C3_harness_strict_true _ "/skill/skill.py" rfl rfl rfl rfl

/-- One of the `inputs_schema` / `outputs_schema` sub-objects of a manifest,
reduced to its `type` tag (the only part the schema constrains). -/
structure SchemaDict where
  type_tag : Option String := none
  deriving DecidableEq, Repr

/-- The `permissions` sub-object of a manifest.  Field values are arbitrary
Python values (so that the `is True` MVP test keeps its identity semantics);
`extra_keys` lists any keys beyond the three declared ones. -/
structure PermissionsDict where
  filesystem : Option PyVal := none
  network : Option PyVal := none
  subprocess : Option PyVal := none
  extra_keys : List String := []
  deriving DecidableEq, Repr

/-- A parsed manifest dictionary, with absent fields as `none` and
`extra_keys` listing unknown top-level keys. -/
structure ManifestDict where
  name : Option String := none
  version : Option String := none
  description : Option String := none
  inputs_schema : Option SchemaDict := none
  outputs_schema : Option SchemaDict := none
  permissions : Option PermissionsDict := none
  extra_keys : List String := []
  deriving DecidableEq, Repr

/-- Pattern check for the skill name: `^[a-z][a-z0-9_]{2,63}$`. -/
def nameOk (s : String) : Bool :=
  match s.toList with
  | [] => false
  | c :: rest =>
    c.isLower && (2 ≤ rest.length && rest.length ≤ 63) &&
      rest.all fun ch => ch.isLower || ch.isDigit || ch = '_'

/-- Pattern check for the version: `^\d+\.\d+\.\d+$`. -/
def versionOk (s : String) : Bool :=
  match s.splitOn "." with
  | [a, b, c] =>
    (!a.isEmpty && a.all Char.isDigit) && (!b.isEmpty && b.all Char.isDigit) &&
      (!c.isEmpty && c.all Char.isDigit)
  | _ => false

/-- Allowed values of `permissions.filesystem`. -/
def filesystemOk (v : PyVal) : Bool :=
  v = PyVal.str "none" || v = PyVal.str "read_workdir" ||
    v = PyVal.str "write_workdir"

/-- Whether a Python value is a boolean. -/
def isPyBool : PyVal → Bool
  | PyVal.bool _ => true
  | _ => false

/-- Modelled from the spec: the complete list of schema violations of a
manifest.  The JSON-Schema file spec/contracts/skill_schema.json is not among
the provided sources; its constraints are taken from specification section 3:
required fields name, version, description, inputs_schema, outputs_schema and
permissions; `name` matches `^[a-z][a-z0-9_]{2,63}$`; `version` matches
`^\d+\.\d+\.\d+$`; `description` is 10-500 characters; `inputs_schema` is an
object schema (type "object"); `outputs_schema` is a typed schema (has a
type); `permissions` has exactly the keys filesystem (one of none,
read_workdir, write_workdir), network (boolean) and subprocess (boolean); the
manifest and `permissions` are closed objects, so unknown keys fail
validation. -/
def schemaViolations (m : ManifestDict) : List String :=
  (match m.name with
   | none => ["'name' is a required property"]
   | some s => if nameOk s then [] else ["name does not match the pattern"]) ++
  (match m.version with
   | none => ["'version' is a required property"]
   | some s =>
     if versionOk s then [] else ["version does not match the pattern"]) ++
  (match m.description with
   | none => ["'description' is a required property"]
   | some s =>
     if 10 ≤ s.length ∧ s.length ≤ 500 then []
     else ["description length is out of range"]) ++
  (match m.inputs_schema with
   | none => ["'inputs_schema' is a required property"]
   | some sch =>
     if sch.type_tag = some "object" then []
     else ["inputs_schema must have type object"]) ++
  (match m.outputs_schema with
   | none => ["'outputs_schema' is a required property"]
   | some sch =>
     if sch.type_tag.isSome then [] else ["outputs_schema must have a type"]) ++
  (match m.permissions with
   | none => ["'permissions' is a required property"]
   | some p =>
     (match p.filesystem with
      | none => ["'filesystem' is a required property"]
      | some v =>
        if filesystemOk v then []
        else ["filesystem is not one of the allowed values"]) ++
     (match p.network with
      | none => ["'network' is a required property"]
      | some v => if isPyBool v then [] else ["network is not of type boolean"]) ++
     (match p.subprocess with
      | none => ["'subprocess' is a required property"]
      | some v =>
        if isPyBool v then [] else ["subprocess is not of type boolean"]) ++
     (if p.extra_keys.isEmpty then []
      else ["additional properties are not allowed in permissions"])) ++
  (if m.extra_keys.isEmpty then []
   else ["additional properties are not allowed"])

/-- Model of `jsonschema.validate`: when the instance violates the schema it
raises a single ValidationError (the library's best-match pick among the
violations, modelled as the first), no matter how many violations exist. -/
def jsonschema_validate (m : ManifestDict) : Option String :=
  (schemaViolations m).head?

/-- MVP check `permissions.get("network") is True`
(src/src/validators/manifest.py line 45); `manifest.get("permissions", {})`
makes a missing permissions object yield no MVP error. -/
def networkIsTrue (m : ManifestDict) : Bool :=
  match m.permissions with
  | some p => p.network = some (PyVal.bool true)
  | none => false

/-- MVP check `permissions.get("subprocess") is True`
(src/src/validators/manifest.py line 48). -/
def subprocessIsTrue (m : ManifestDict) : Bool :=
  match m.permissions with
  | some p => p.subprocess = some (PyVal.bool true)
  | none => false

/-- src/src/validators/manifest.py validate_manifest (lines 18-51): one
schema-error message when jsonschema.validate raises, then the two MVP
permission checks, errors accumulated in that order. -/
def validate_manifest (m : ManifestDict) : Bool × List String :=
  let schema_errors :=
    match jsonschema_validate m with
    | some e => ["Schema validation error: " ++ e]
    | none => []
  let network_errors :=
    if networkIsTrue m then ["MVP constraint violation: network must be False"]
    else []
  let subprocess_errors :=
    if subprocessIsTrue m then
      ["MVP constraint violation: subprocess must be False"]
    else []
  let errors := schema_errors ++ network_errors ++ subprocess_errors
  (errors.isEmpty, errors)

/-- The completeness property exactly as the claim states it: every schema
violation of the manifest appears in the returned error list. -/
def ClaimedReportsAllViolations : Prop :=
  ∀ m : ManifestDict, ∀ v ∈ schemaViolations m,
    ("Schema validation error: " ++ v) ∈ (validate_manifest m).2

/-- C7, counterexample: the empty manifest violates all six required-property
constraints at once, but validate_manifest returns a single schema error (the
one raised by jsonschema.validate), so the missing-version violation is not
reported. -/
theorem C7_counterexample : ¬ ClaimedReportsAllViolations := by
  intro h
  have hmem : "'version' is a required property" ∈
      schemaViolations ({} : ManifestDict) := by decide
  have hin := h {} "'version' is a required property" hmem
  revert hin
  decide

/-- C7, amended: a single validate_manifest call reports all MVP permission
violations but at most one schema violation (jsonschema.validate raises a
single error even when several schema constraints are violated); the boolean
verdict is nevertheless exact — the manifest is declared valid precisely when
it has no schema violation and no MVP violation. -/
theorem C7_validate_manifest_amended (m : ManifestDict) :
    ((validate_manifest m).1 = true ↔
      (schemaViolations m = [] ∧ networkIsTrue m = false ∧
        subprocessIsTrue m = false)) ∧
    (networkIsTrue m = true →
      "MVP constraint violation: network must be False" ∈
        (validate_manifest m).2) ∧
    (subprocessIsTrue m = true →
      "MVP constraint violation: subprocess must be False" ∈
        (validate_manifest m).2) ∧
    ((validate_manifest m).2.length =
      min 1 (schemaViolations m).length +
        (if networkIsTrue m then 1 else 0) +
        (if subprocessIsTrue m then 1 else 0)) := by
  cases hs : schemaViolations m with
  | nil =>
    cases hn : networkIsTrue m <;> cases hp : subprocessIsTrue m <;>
      simp [validate_manifest, jsonschema_validate, hs, hn, hp]
  | cons e es =>
    cases hn : networkIsTrue m <;> cases hp : subprocessIsTrue m <;>
      simp [validate_manifest, jsonschema_validate, hs, hn, hp]

/-- Witness for the amended C7 theorem on a manifest with both MVP
violations and no other field. -/
theorem C7_validate_manifest_amended_witness :
    ((validate_manifest
        { permissions := some
            { network := some (PyVal.bool true),
              subprocess := some (PyVal.bool true) } }).1 = true ↔
      (schemaViolations
          { permissions := some
              { network := some (PyVal.bool true),
                subprocess := some (PyVal.bool true) } } = [] ∧
        networkIsTrue
          { permissions := some
              { network := some (PyVal.bool true),
                subprocess := some (PyVal.bool true) } } = false ∧
        subprocessIsTrue
          { permissions := some
              { network := some (PyVal.bool true),
                subprocess := some (PyVal.bool true) } } = false)) ∧
    (networkIsTrue
        { permissions := some
            { network := some (PyVal.bool true),
              subprocess := some (PyVal.bool true) } } = true →
      "MVP constraint violation: network must be False" ∈
        (validate_manifest
          { permissions := some
              { network := some (PyVal.bool true),
                subprocess := some (PyVal.bool true) } }).2) ∧
    (subprocessIsTrue
        { permissions := some
            { network := some (PyVal.bool true),
              subprocess := some (PyVal.bool true) } } = true →
      "MVP constraint violation: subprocess must be False" ∈
        (validate_manifest
          { permissions := some
              { network := some (PyVal.bool true),
                subprocess := some (PyVal.bool true) } }).2) ∧
    ((validate_manifest
        { permissions := some
            { network := some (PyVal.bool true),
              subprocess := some (PyVal.bool true) } }).2.length =
      min 1 (schemaViolations
          { permissions := some
              { network := some (PyVal.bool true),
                subprocess := some (PyVal.bool true) } }).length +
        (if networkIsTrue
            { permissions := some
                { network := some (PyVal.bool true),
                  subprocess := some (PyVal.bool true) } } then 1 else 0) +
        (if subprocessIsTrue
            { permissions := some
                { network := some (PyVal.bool true),
                  subprocess := some (PyVal.bool true) } } then 1 else 0)) :=
  C7_validate_manifest_amended _

/-- Python exceptions that the loader paths can raise. -/
inductive PyErr
  | type_error (msg : String)
  | file_not_found (msg : String)
  | json_decode_error (msg : String)
  | value_error (msg : String)
  | import_error (msg : String)
  | attribute_error (msg : String)
  deriving DecidableEq, Repr

/-- State of a skill.json manifest file on disk: missing, present but not
valid JSON, or parsed into a manifest dictionary. -/
inductive ManifestFile
  | absent
  | invalid_json
  | parsed (m : ManifestDict)
  deriving DecidableEq, Repr

/-- A loaded skill.py module, reduced to the attributes the loader
inspects. -/
structure PyModule where
  has_action : Bool
  has_verify : Bool
  deriving DecidableEq, Repr

/-- On-disk state visible to SkillLoader for a given (name, version):
the manifest file, the skill directory and the skill.py module. -/
structure LoaderFs where
  manifest_file : String → String → ManifestFile
  skill_dir_exists : String → String → Bool
  skill_py : String → String → Option PyModule

/-- Parameter list of validate_manifest
(src/src/validators/manifest.py line 18): the single parameter `manifest`. -/
def validate_manifest_params : List String := ["manifest"]

/-- Python call binding for validate_manifest: a call passing a keyword
argument that is not among the function's parameters raises TypeError before
the body runs. -/
def call_validate_manifest (m : ManifestDict) (kwarg_names : List String) :
    Except PyErr (Bool × List String) :=
  match kwarg_names.find? (fun k => !validate_manifest_params.contains k) with
  | none => Except.ok (validate_manifest m)
  | some k =>
    Except.error (PyErr.type_error
      ("validate_manifest() got an unexpected keyword argument '" ++ k ++ "'"))

/-- src/src/skill_loader.py SkillLoader.load_manifest (lines 55-75), at an
explicitly resolved version: read skill.json, then call
`validate_manifest(manifest_data, enforce_mvp_constraints=...)` — a call that
passes the keyword argument enforce_mvp_constraints. -/
def load_manifest (fs : LoaderFs) (name version : String) :
    Except PyErr ManifestDict :=
  match fs.manifest_file name version with
  | ManifestFile.absent =>
    Except.error (PyErr.file_not_found
      ("Missing manifest: " ++ name ++ "/" ++ version ++ "/skill.json"))
  | ManifestFile.invalid_json =>
    Except.error (PyErr.json_decode_error "Expecting value")
  | ManifestFile.parsed m =>
    match call_validate_manifest m ["enforce_mvp_constraints"] with
    | Except.error e => Except.error e
    | Except.ok (ok, errors) =>
      if ok then Except.ok m
      else
        Except.error (PyErr.value_error
          ("Manifest validation failed: " ++ String.intercalate "; " errors))

/-- src/src/skill_loader.py SkillLoader.load_module (lines 77-92). -/
def load_module (fs : LoaderFs) (name version : String) :
    Except PyErr PyModule :=
  match fs.skill_py name version with
  | none =>
    Except.error (PyErr.file_not_found
      ("Missing skill code: " ++ name ++ "/" ++ version ++ "/skill.py"))
  | some mod => Except.ok mod

/-- A LoadedSkill value (src/src/skill_loader.py lines 16-24), without the
path field. -/
structure LoadedSkill where
  name : String
  version : String
  manifest : ManifestDict
  module : PyModule
  deriving DecidableEq, Repr

/-- The per-loader cache `_cache` keyed by (name, version). -/
abbrev LoaderCache := List ((String × String) × LoadedSkill)

/-- src/src/skill_loader.py SkillLoader.load (lines 94-116): consult the
cache, check the skill directory, load manifest then module, and populate the
cache. -/
def load (fs : LoaderFs) (cache : LoaderCache) (name version : String) :
    Except PyErr (LoadedSkill × LoaderCache) :=
  match cache.lookup (name, version) with
  | some cached => Except.ok (cached, cache)
  | none =>
    if fs.skill_dir_exists name version = false then
      Except.error (PyErr.file_not_found
        ("Missing skill directory: " ++ name ++ "/" ++ version))
    else
      match load_manifest fs name version with
      | Except.error e => Except.error e
      | Except.ok manifest =>
        match load_module fs name version with
        | Except.error e => Except.error e
        | Except.ok module =>
          let loaded : LoadedSkill :=
            { name := name, version := version, manifest := manifest,
              module := module }
          Except.ok (loaded, ((name, version), loaded) :: cache)

/-- src/src/skill_loader.py SkillLoader.get_action (lines 118-124); the
returned unit value stands for the callable handle. -/
def get_action (fs : LoaderFs) (cache : LoaderCache) (name version : String) :
    Except PyErr Unit :=
  match load fs cache name version with
  | Except.error e => Except.error e
  | Except.ok (loaded, _) =>
    if loaded.module.has_action then Except.ok ()
    else
      Except.error (PyErr.attribute_error
        ("Skill " ++ name ++ " has no callable action()"))

/-- src/src/skill_loader.py SkillLoader.get_verify (lines 126-132). -/
def get_verify (fs : LoaderFs) (cache : LoaderCache) (name version : String) :
    Except PyErr Unit :=
  match load fs cache name version with
  | Except.error e => Except.error e
  | Except.ok (loaded, _) =>
    if loaded.module.has_verify then Except.ok ()
    else
      Except.error (PyErr.attribute_error
        ("Skill " ++ name ++ " has no callable verify()"))

/-- C5, confirmed: whenever the manifest file exists and parses,
load_manifest raises TypeError — validate_manifest does not accept the
keyword argument enforce_mvp_constraints — and consequently a fresh loader's
load, get_action and get_verify can never return a handle for such a skill. -/
theorem C5_loader_type_error (fs : LoaderFs) (name version : String)
    (m : ManifestDict)
    (hm : fs.manifest_file name version = ManifestFile.parsed m) :
    load_manifest fs name version =
      Except.error (PyErr.type_error
        ("validate_manifest() got an unexpected keyword argument '" ++
          "enforce_mvp_constraints" ++ "'")) ∧
    (∀ out, load fs [] name version ≠ Except.ok out) ∧
    (∀ u, get_action fs [] name version ≠ Except.ok u) ∧
    (∀ u, get_verify fs [] name version ≠ Except.ok u) := by
  have hlm : load_manifest fs name version =
      Except.error (PyErr.type_error
        ("validate_manifest() got an unexpected keyword argument '" ++
          "enforce_mvp_constraints" ++ "'")) := by
    simp [load_manifest, hm, call_validate_manifest, validate_manifest_params,
      List.find?]
  have hload : ∀ out, load fs [] name version ≠ Except.ok out := by
    intro out hok
    by_cases hdir : fs.skill_dir_exists name version = false
    · simp [load, List.lookup, hdir] at hok
    · simp [load, List.lookup, hdir, hlm] at hok
  refine ⟨hlm, hload, ?_, ?_⟩
  · intro u hok
    cases hl : load fs [] name version with
    | error e => simp [get_action, hl] at hok
    | ok out => exact hload out hl
  · intro u hok
    cases hl : load fs [] name version with
    | error e => simp [get_verify, hl] at hok
    | ok out => exact hload out hl

/-- Witness for C5: a filesystem holding one parsed (fully valid) manifest
for text_echo 1.0.0 with its module present. -/
def c5Fs : LoaderFs :=
  { manifest_file := fun n v =>
      if n = "text_echo" ∧ v = "1.0.0" then
        ManifestFile.parsed
          { name := some "text_echo", version := some "1.0.0",
            description := some "Echoes the input text back.",
            inputs_schema := some { type_tag := some "object" },
            outputs_schema := some { type_tag := some "string" },
            permissions := some
              { filesystem := some (PyVal.str "none"),
                network := some (PyVal.bool false),
                subprocess := some (PyVal.bool false) } }
      else ManifestFile.absent,
    skill_dir_exists := fun _ _ => true,
    skill_py := fun _ _ =>
      some { has_action := true, has_verify := true } }

/-- Witness for the C5 theorem at the concrete filesystem. -/
theorem C5_loader_type_error_witness :
    load_manifest c5Fs "text_echo" "1.0.0" =
      Except.error (PyErr.type_error
        ("validate_manifest() got an unexpected keyword argument '" ++
          "enforce_mvp_constraints" ++ "'")) ∧
    (∀ out, load c5Fs [] "text_echo" "1.0.0" ≠ Except.ok out) ∧
    (∀ u, get_action c5Fs [] "text_echo" "1.0.0" ≠ Except.ok u) ∧
    (∀ u, get_verify c5Fs [] "text_echo" "1.0.0" ≠ Except.ok u) :=
  C5_loader_type_error c5Fs "text_echo" "1.0.0" _ rfl

/-- Containment of the space character: Python's `" " in str_value` tests
membership of the one-character string, which is containment of U+0020. -/
def containsSpace (s : String) : Bool :=
  s.toList.any fun c => c = ' '

/-- src/src/audit.py AuditLogger.log value formatting (lines 35-38): the
stringified value is double-quoted when it contains the space character
(`if " " in str_value`). -/
def formatValue (s : String) : String :=
  if containsSpace s then "\"" ++ s ++ "\"" else s

lemma intercalate_single (s x : String) : String.intercalate s [x] = x := rfl

/-- The k=v pair strings of one log call: kwargs in order, with keys whose
value is None skipped (lines 32-39).  Values arrive already stringified. -/
def auditPairs (kwargs : List (String × Option String)) : List String :=
  kwargs.filterMap fun kv => kv.2.map fun v => kv.1 ++ "=" ++ formatValue v

/-- src/src/audit.py AuditLogger.log line construction (lines 28-46); the
`if kv_string` truthiness test is equivalent to the pair list being empty,
since every pair contains an equals sign. -/
def auditLogLine (timestamp operation : String)
    (kwargs : List (String × Option String)) : String :=
  let kv_string := String.intercalate " " (auditPairs kwargs)
  if (auditPairs kwargs).isEmpty then
    timestamp ++ " [" ++ operation ++ "]" ++ "\n"
  else timestamp ++ " [" ++ operation ++ "] " ++ kv_string ++ "\n"

/-- The quoting rule exactly as the claim states it: a value whose
stringification contains any whitespace character appears double-quoted. -/
def ClaimedQuotesAllWhitespace : Prop :=
  ∀ timestamp operation k v, (v.toList.any Char.isWhitespace) = true →
    auditLogLine timestamp operation [(k, some v)] =
      timestamp ++ " [" ++ operation ++ "] " ++
        (k ++ "=" ++ ("\"" ++ v ++ "\"")) ++ "\n"

/-- C4-neighbouring helper is not needed; C10 counterexample: a value
containing a tab — whitespace but not the space character — is not quoted. -/
theorem C10_counterexample : ¬ ClaimedQuotesAllWhitespace := by
  intro h
  have hx := h "2026-02-01T10:00:00Z" "ROLLBACK" "reason" "a\tb" (by decide)
  revert hx
  decide

/-- C10, amended: every None-valued key is omitted from the line, and a value
is double-quoted exactly when its stringification contains the space
character U+0020 — a value containing only other whitespace (tab, newline) is
left unquoted, so a newline-carrying value can still break the
one-event-per-line grammar. -/
theorem C10_audit_line_amended (timestamp operation k v_sp v_ns : String)
    (kwargs_pre kwargs_post : List (String × Option String))
    (hsp : containsSpace v_sp = true) (hns : containsSpace v_ns = false) :
    (auditLogLine timestamp operation
        (kwargs_pre ++ (k, none) :: kwargs_post) =
      auditLogLine timestamp operation (kwargs_pre ++ kwargs_post)) ∧
    (auditLogLine timestamp operation [(k, some v_sp)] =
      timestamp ++ " [" ++ operation ++ "] " ++
        (k ++ "=" ++ ("\"" ++ v_sp ++ "\"")) ++ "\n") ∧
    (auditLogLine timestamp operation [(k, some v_ns)] =
      timestamp ++ " [" ++ operation ++ "] " ++ (k ++ "=" ++ v_ns) ++ "\n") := by
  refine ⟨?_, ?_, ?_⟩
  · have hpairs : auditPairs (kwargs_pre ++ (k, none) :: kwargs_post) =
        auditPairs (kwargs_pre ++ kwargs_post) := by
      simp [auditPairs, List.filterMap_append]
    simp only [auditLogLine, hpairs]
  · simp [auditLogLine, auditPairs, formatValue, hsp, intercalate_single]
  · simp [auditLogLine, auditPairs, formatValue, hns, intercalate_single]

/-- Witness for the amended C10 theorem at concrete values. -/
theorem C10_audit_line_amended_witness :
    (auditLogLine "2026-02-01T10:00:00Z" "DISABLE"
        ([("skill", some "text_echo")] ++ ("reason", none) ::
          [("version", some "1.0.0")]) =
      auditLogLine "2026-02-01T10:00:00Z" "DISABLE"
        ([("skill", some "text_echo")] ++ [("version", some "1.0.0")])) ∧
    (auditLogLine "2026-02-01T10:00:00Z" "DISABLE"
        [("reason", some "Rollback to 0.9.0")] =
      "2026-02-01T10:00:00Z" ++ " [" ++ "DISABLE" ++ "] " ++
        ("reason" ++ "=" ++ ("\"" ++ "Rollback to 0.9.0" ++ "\"")) ++ "\n") ∧
    (auditLogLine "2026-02-01T10:00:00Z" "DISABLE"
        [("reason", some "1.0.0")] =
      "2026-02-01T10:00:00Z" ++ " [" ++ "DISABLE" ++ "] " ++
        ("reason" ++ "=" ++ "1.0.0") ++ "\n") :=
  C10_audit_line_amended "2026-02-01T10:00:00Z" "DISABLE" "reason"
    "Rollback to 0.9.0" "1.0.0" _ _ (by decide) (by decide)

/-- Filesystem paths as component lists; `dropLast` is the parent
directory. -/
abbrev FsPath := List String

/-- Filesystem operations observable from a registry save: create the parent
directories, truncating-write the final path in place, write a fresh
temporary file, or atomically rename. -/
inductive FsOp
  | mkdir_parents (dir : FsPath)
  | open_trunc_write (path : FsPath) (data : RegistryData)
  | write_new_file (path : FsPath) (data : RegistryData)
  | rename (src dst : FsPath)

/-- src/src/registry.py Registry.save (lines 26-31) as its trace of
filesystem operations: mkdir the parent, then `open(self.registry_path, "w")`
followed by json.dump — an in-place truncating write of the registry path
itself.  The payload is the saved RegistryData; its JSON rendering is not
modelled, so a file that holds a complete RegistryData is one that parses. -/
def Registry.save_trace (registry_path : FsPath) (d : RegistryData)
    (now : Nat) : List FsOp :=
  [FsOp.mkdir_parents registry_path.dropLast,
   FsOp.open_trunc_write registry_path (Registry.save d now)]

/-- The save pattern the specification describes: never open the final path
for a direct write; write a temporary file in the same directory and rename
it onto the final name. -/
def AtomicRenameSave (tr : List FsOp) (registry_path : FsPath) : Prop :=
  (∀ d, FsOp.open_trunc_write registry_path d ∉ tr) ∧
  (∃ tmp d, tmp ≠ registry_path ∧ tmp.dropLast = registry_path.dropLast ∧
    FsOp.write_new_file tmp d ∈ tr ∧ FsOp.rename tmp registry_path ∈ tr)

/-- The persistence discipline exactly as the claim states it: every save
writes a temporary file in the same directory and atomically renames it onto
the registry path. -/
def ClaimedAtomicSave : Prop :=
  ∀ registry_path d now,
    AtomicRenameSave (Registry.save_trace registry_path d now) registry_path

/-- C4, counterexample: Registry.save opens the registry path directly for a
truncating write and performs no rename at all. -/
theorem C4_counterexample : ¬ ClaimedAtomicSave := by
  intro h
  exact (h ["data", "registry.json"] emptyRegistry 1).1
    (Registry.save emptyRegistry 1) (by simp [Registry.save_trace])

/-- Replay of a trace over a file system mapping paths to complete file
contents.  `open_trunc_write` is atomic only at this granularity: the partial
states during an in-place write are exactly what the rename pattern would
have avoided. -/
def applyFsOp (fs : FsPath → Option RegistryData) :
    FsOp → (FsPath → Option RegistryData)
  | FsOp.mkdir_parents _ => fs
  | FsOp.open_trunc_write p d => fun q => if q = p then some d else fs q
  | FsOp.write_new_file p d => fun q => if q = p then some d else fs q
  | FsOp.rename src dst =>
    fun q => if q = dst then fs src else if q = src then none else fs q

/-- Final file system after a trace. -/
def runFs (fs : FsPath → Option RegistryData) (tr : List FsOp) :
    FsPath → Option RegistryData :=
  tr.foldl applyFsOp fs

/-- C4, amended: Registry.save writes the registry file in place — parent
mkdir, then a truncating open and a full JSON dump of the new registry state
— with no temporary file and no rename; once the save completes the registry
path holds the complete new registry (which parses), but a reader during the
in-place write is not protected by a rename. -/
theorem C4_save_in_place_amended (registry_path : FsPath) (d : RegistryData)
    (now : Nat) (fs : FsPath → Option RegistryData) :
    runFs fs (Registry.save_trace registry_path d now) registry_path =
      some (Registry.save d now) ∧
    ¬ AtomicRenameSave (Registry.save_trace registry_path d now)
      registry_path := by
  constructor
  · simp [runFs, Registry.save_trace, applyFsOp]
  · intro h
    exact h.1 (Registry.save d now) (by simp [Registry.save_trace])

/-- Witness for the amended C4 theorem at a concrete path and registry. -/
theorem C4_save_in_place_amended_witness :
    runFs (fun _ => none)
        (Registry.save_trace ["data", "registry.json"] emptyRegistry 1)
        ["data", "registry.json"] =
      some (Registry.save emptyRegistry 1) ∧
    ¬ AtomicRenameSave
      (Registry.save_trace ["data", "registry.json"] emptyRegistry 1)
      ["data", "registry.json"] :=
  C4_save_in_place_amended ["data", "registry.json"] emptyRegistry 1 _

end OpenClaw
